import Mathlib

/-!
Verification of the route-description scoring engine of the map-game
repository (scoring service module).  The JavaScript/TypeScript source is
embedded shallowly: JS strings become Lean String values manipulated through
List Char, JS numbers in the scoring arithmetic become exact rationals, and
the regex-based extraction routines are modelled by direct linear scanners
that implement the exact matching semantics of the patterns used in the
source (one fixed literal per scan, as the source deliberately compiles one
pattern per suffix word).
-/

namespace MapGame

/-- One character of the JS regex class backslash-w: ASCII letter, digit or
underscore. -/
def jsWordChar (c : Char) : Bool :=
  (('a' ≤ c && c ≤ 'z') || ('A' ≤ c && c ≤ 'Z') || ('0' ≤ c && c ≤ '9') || c = '_')

/-- Whitespace test used for the JS regex class backslash-s and for trim
(ASCII fragment, which covers every input the game produces). -/
def isWsChar (c : Char) : Bool := c.isWhitespace

/-- Lowercasing of a character list, modelling JS toLowerCase on ASCII. -/
def lowerList (l : List Char) : List Char := l.map Char.toLower

/-- Lowercasing at the String level. -/
def lowerStr (s : String) : String := String.mk (lowerList s.toList)

/-- Boolean list-prefix test (needle, hay). -/
def isPrefixB : List Char → List Char → Bool
  | [], _ => true
  | _ :: _, [] => false
  | a :: as, b :: bs => a = b && isPrefixB as bs

/-- Boolean substring test: does hay contain needle contiguously?  Models JS
String.includes. -/
def hasSubstr : List Char → List Char → Bool
  | [], n => isPrefixB n []
  | c :: t, n => isPrefixB n (c :: t) || hasSubstr t n

/-- JS s.includes(w) at the String level. -/
def jsIncludes (s w : String) : Bool := hasSubstr s.toList w.toList

/-- JS String.trim on a character list: strip trailing whitespace, then
leading whitespace (order is irrelevant to the result; trailing first keeps
the head of the result directly characterised by dropWhile). -/
def trimList (l : List Char) : List Char :=
  ((l.reverse.dropWhile isWsChar).reverse).dropWhile isWsChar

/-- Number of maximal runs of non-whitespace characters; the Bool records
whether the scan is currently inside such a run. -/
def countTok : Bool → List Char → Nat
  | _, [] => 0
  | inWord, c :: cs =>
    if isWsChar c then countTok false cs
    else (if inWord then 0 else 1) + countTok true cs

/-- Length of the JS split of a TRIMMED string on the regex backslash-s-plus:
the split of the empty string is the one-element list holding the empty
string (so the length is 1, not 0), and the split of a nonempty trimmed
string is exactly its list of whitespace-separated words.  The scoring
source evaluates cleaned.split(...).length with cleaned always trimmed. -/
def splitWsCount (s : String) : Nat :=
  if s.toList = [] then 1 else countTok false s.toList

/-- Deduplication keeping first occurrences, with an accumulator of the
elements already seen: models iteration order of a JS Set built from a
list. -/
def dedupFirstAux {α : Type} [DecidableEq α] (seen : List α) : List α → List α
  | [] => []
  | a :: as => if a ∈ seen then dedupFirstAux seen as else a :: dedupFirstAux (a :: seen) as

/-- Spread of new Set(list) in JS: distinct elements in order of first
occurrence. -/
def dedupFirst {α : Type} [DecidableEq α] (l : List α) : List α := dedupFirstAux [] l

/-- Word boundary of the regex metachar after a literal ending in a word
character: satisfied at end of input or before a non-word character. -/
def boundaryAfter : List Char → Bool
  | [] => true
  | c :: _ => !(jsWordChar c)

/-- One match attempt of the street pattern (word-chars, whitespace, literal
suffix, boundary) at the head of the input, case-insensitively.  The greedy
word-char and whitespace runs of the pattern are forced to be maximal: a
shorter word run would have to be followed by whitespace but is followed by
a word character, and a shorter whitespace run would have to be followed by
the letter opening the suffix literal but is followed by whitespace.  On
success, returns the matched slice of the input and the remaining input. -/
def matchWordSuffix (lit : List Char) (l : List Char) : Option (List Char × List Char) :=
  let run := l.takeWhile jsWordChar
  if run.isEmpty then none
  else
    let l1 := l.drop run.length
    let ws := l1.takeWhile isWsChar
    if ws.isEmpty then none
    else
      let l2 := l1.drop ws.length
      if lowerList (l2.take lit.length) = lit then
        if boundaryAfter (l2.drop lit.length) then
          some (run ++ ws ++ l2.take lit.length, l2.drop lit.length)
        else none
      else none

/-- One match attempt of the distance pattern (digits, optional whitespace,
literal unit, boundary) at the head of the input; the greedy digit and
whitespace runs are again forced maximal because every unit literal opens
with a letter. -/
def matchNumUnit (lit : List Char) (l : List Char) : Option (List Char × List Char) :=
  let run := l.takeWhile Char.isDigit
  if run.isEmpty then none
  else
    let l1 := l.drop run.length
    let ws := l1.takeWhile isWsChar
    let l2 := l1.drop ws.length
    if lowerList (l2.take lit.length) = lit then
      if boundaryAfter (l2.drop lit.length) then
        some (run ++ ws ++ l2.take lit.length, l2.drop lit.length)
      else none
    else none

/-- Global regex scan: repeatedly attempt the single-position matcher,
resuming after each match (as the JS global flag does through lastIndex) and
advancing one character after each failed attempt.  A match attempt starting
inside a word run succeeds exactly when the attempt at the start of that run
does, so position-by-position advance reproduces the leftmost-match rule.
The fuel argument is instantiated with the input length, which suffices
because every step consumes at least one character. -/
def scanPattern (stepFn : List Char → Option (List Char × List Char)) :
    Nat → List Char → List (List Char)
  | 0, _ => []
  | _ + 1, [] => []
  | fuel + 1, c :: cs =>
    match stepFn (c :: cs) with
    | some (m, rest) => m :: scanPattern stepFn fuel rest
    | none => scanPattern stepFn fuel cs

/-- Direction vocabulary of the normalizer, in source order. -/
def directionWords : List String :=
  ["north", "south", "east", "west",
   "left", "right", "straight", "forward",
   "turn", "continue", "head", "go"]

/-- Street suffix vocabulary of the normalizer, in source order. -/
def streetSuffixes : List String :=
  ["boulevard", "street", "avenue", "drive", "lane", "road", "way",
   "blvd", "st", "ave", "rd", "dr", "ln"]

/-- Landmark vocabulary of the normalizer, in source order. -/
def landmarkWords : List String :=
  ["park", "church", "school", "hospital", "mall", "store",
   "restaurant", "cafe", "bank", "library", "museum",
   "bridge", "station", "plaza", "square", "center"]

/-- Distance unit vocabulary of the normalizer, in source order (longer
units first so that a long unit is not shadowed by a shorter one). -/
def distanceUnits : List String :=
  ["kilometers", "kilometer", "minutes", "minute", "meters", "meter",
   "blocks", "block", "miles", "mile", "km", "min", "mi", "m"]

/-- Direction extraction: the direction vocabulary words contained in the
route text as substrings, each at most once, in vocabulary order. -/
def extractDirections (route : String) : List String :=
  directionWords.filter (fun word => jsIncludes route word)

/-- Street extraction: for each suffix in order, every global match of the
pattern word-chars, whitespace, suffix, boundary; the collected raw matches
are deduplicated as a set and then lowercased and trimmed. -/
def extractStreets (route : String) : List String :=
  let allMatches :=
    (streetSuffixes.map (fun suffix =>
      scanPattern (matchWordSuffix suffix.toList) route.toList.length route.toList)).flatten
  (dedupFirst allMatches).map (fun m => String.mk (trimList (lowerList m)))

/-- Landmark extraction: the landmark vocabulary words contained in the
route text as substrings, each at most once, in vocabulary order. -/
def extractLandmarks (route : String) : List String :=
  landmarkWords.filter (fun word => jsIncludes route word)

/-- Distance extraction: for each unit in order, every global match of the
pattern digits, optional whitespace, unit, boundary; deduplicated,
lowercased and trimmed like streets. -/
def extractDistances (route : String) : List String :=
  let allMatches :=
    (distanceUnits.map (fun unit =>
      scanPattern (matchNumUnit unit.toList) route.toList.length route.toList)).flatten
  (dedupFirst allMatches).map (fun m => String.mk (trimList (lowerList m)))

/-- Normalized route data structure of the scoring source. -/
structure NormalizedRoute where
  original : String
  cleaned : String
  directions : List String
  streets : List String
  landmarks : List String
  distances : List String
  wordCount : Nat
deriving DecidableEq

/-- Normalize a route description: lowercase and trim, then extract
directions, streets, landmarks and distance tokens, and count words by
splitting the cleaned text on whitespace runs. -/
def normalizeRoute (route : String) : NormalizedRoute :=
  let cleaned := String.mk (trimList (lowerList route.toList))
  { original := route
    cleaned := cleaned
    directions := extractDirections cleaned
    streets := extractStreets cleaned
    landmarks := extractLandmarks cleaned
    distances := extractDistances cleaned
    wordCount := splitWsCount cleaned }

/-- Global literal replacement, modelling JS String.replace with a literal
global pattern: scan left to right, replace every non-overlapping occurrence
and resume after the replacement text.  The fuel is instantiated with the
input length; every step consumes at least one input character (all the
patterns used are nonempty literals). -/
def jsReplaceAllAux (pat rep : List Char) : Nat → List Char → List Char
  | _, [] => []
  | 0, l => l
  | fuel + 1, c :: cs =>
    if isPrefixB pat (c :: cs) then
      rep ++ jsReplaceAllAux pat rep fuel (cs.drop (pat.length - 1))
    else
      c :: jsReplaceAllAux pat rep fuel cs

/-- JS s.replace(pattern-as-global-literal, rep) at the String level. -/
def jsReplaceAll (pat rep s : String) : String :=
  String.mk (jsReplaceAllAux pat.toList rep.toList s.toList.length s.toList)

/-- JS String.split on a single separator character, keeping the empty
pieces: the split of the empty string is the one-element list holding the
empty string. -/
def splitOnCharList (sep : Char) (l : List Char) : List (List Char) :=
  l.foldr
    (fun c acc =>
      if c = sep then [] :: acc
      else
        match acc with
        | [] => [[c]]
        | t :: ts => (c :: t) :: ts)
    [[]]

/-- Everything after the first greater-than character, if one occurs. -/
def afterFirstGt : List Char → Option (List Char)
  | [] => none
  | c :: cs => if c = '>' then some cs else afterFirstGt cs

/-- JS part.substring(part.indexOf(gt) + 1): the tail after the first
greater-than character, or the whole part when there is none (indexOf gives
minus one, so substring of zero returns the part unchanged). -/
def substringAfterGt (l : List Char) : List Char :=
  match afterFirstGt l with
  | some r => r
  | none => l

/-- The ampersand-hash-three-nine-semicolon entity as a string (spelled by
code points to keep the apostrophe out of the source text). -/
def aposEntity : String := String.mk [Char.ofNat 38, Char.ofNat 35, Char.ofNat 51, Char.ofNat 57, Char.ofNat 59]

/-- A one-character string holding the apostrophe. -/
def aposStr : String := String.mk [Char.ofNat 39]

/-- A one-character string holding the double quote. -/
def quoteStr : String := String.mk [Char.ofNat 34]

/-- The entity-decoding phase of the tag stripper: the source chains five
global replaces, decoding the lt, gt, amp, quot and apostrophe entities in
that order, before splitting on tags. -/
def decodeEntities (text : String) : String :=
  jsReplaceAll aposEntity aposStr
    (jsReplaceAll "&quot;" quoteStr
      (jsReplaceAll "&amp;" "&"
        (jsReplaceAll "&gt;" ">"
          (jsReplaceAll "&lt;" "<" text))))

/-- Remove HTML tags without regex backtracking: guard the empty input,
decode the five common entities, split on the less-than character, keep the
first piece whole and cut every later piece after its first greater-than
character, then join.  Models the source exactly (the typeof guard of the
source is vacuous here because the embedding is typed). -/
def removeHtmlTags (text : String) : String :=
  if text = "" then ""
  else
    let decoded := decodeEntities text
    match splitOnCharList '<' decoded.toList with
    | [] => ""
    | p :: ps => String.mk (p ++ (ps.map substringAfterGt).flatten)

/-- Text and numeric value pair of the external route shape. -/
structure TextValue where
  text : String
  value : Int
deriving DecidableEq

/-- One step of the external route shape (instructions may contain
markup). -/
structure GoogleStep where
  instructions : String
  distance : TextValue
  duration : TextValue
deriving DecidableEq

/-- One leg of the external route shape. -/
structure GoogleLeg where
  distance : TextValue
  duration : TextValue
  steps : List GoogleStep
deriving DecidableEq

/-- Encoded polyline of a route alternative (never consulted by the
scorer). -/
structure OverviewPolyline where
  points : String
deriving DecidableEq

/-- One route alternative of the external route shape. -/
structure GoogleRouteAlt where
  legs : List GoogleLeg
  overview_polyline : OverviewPolyline
deriving DecidableEq

/-- The external route shape delivered by the mapping collaborator. -/
structure GoogleRoute where
  routes : List GoogleRouteAlt
deriving DecidableEq

/-- Route step derived per reference step by the scorer. -/
structure RouteStep where
  instruction : String
  distance : String
  duration : String
  direction : String
deriving DecidableEq

/-- Extract the canonical direction of one reference instruction: strip the
markup, lowercase, then first-match precedence over turn words, then
straight or continue, then the four cardinal words, else unknown. -/
def extractDirectionFromInstruction (instruction : String) : String :=
  let cleaned := lowerStr (removeHtmlTags instruction)
  if jsIncludes cleaned "turn left" || jsIncludes cleaned "left" then "left"
  else if jsIncludes cleaned "turn right" || jsIncludes cleaned "right" then "right"
  else if jsIncludes cleaned "straight" || jsIncludes cleaned "continue" then "straight"
  else if jsIncludes cleaned "north" then "north"
  else if jsIncludes cleaned "south" then "south"
  else if jsIncludes cleaned "east" then "east"
  else if jsIncludes cleaned "west" then "west"
  else "unknown"

/-- Extract the step sequence of the first leg of the first route
alternative, failing soft to the empty sequence when the route is absent,
has no alternatives, or the first alternative has no legs. -/
def extractRouteSteps (googleRoute : Option GoogleRoute) : List RouteStep :=
  match googleRoute with
  | none => []
  | some gr =>
    if gr.routes.isEmpty then []
    else
      match gr.routes.head? with
      | none => []
      | some alt =>
        match alt.legs.head? with
        | none => []
        | some leg =>
          leg.steps.map (fun step =>
            { instruction := lowerStr (removeHtmlTags step.instructions)
              distance := step.distance.text
              duration := step.duration.text
              direction := extractDirectionFromInstruction step.instructions })

/-- Four named sub-scores of the breakdown, as exact rationals. -/
structure ScoreBreakdown where
  routeMatch : ℚ
  directionAccuracy : ℚ
  landmarkMention : ℚ
  completeness : ℚ
deriving DecidableEq

/-- Score result returned by the scorer. -/
structure ScoreResult where
  score : ℤ
  maxScore : ℤ
  breakdown : ScoreBreakdown
  feedback : List String
deriving DecidableEq

/-- Route match sub-score: guard the empty step list, re-extract street
names from every reference step instruction (concatenating, as the source
flatMap does, without deduplicating across steps), count the user streets
that match some reference street by substring in either direction, and
scale by the larger of the two list lengths, guarding a zero denominator. -/
def calculateRouteMatch (userRoute : NormalizedRoute) (googleSteps : List RouteStep) : ℚ :=
  if googleSteps.isEmpty then 0
  else
    let googleStreets := (googleSteps.map (fun step => extractStreets step.instruction)).flatten
    let matchCount := userRoute.streets.countP
      (fun u => googleStreets.any (fun g => jsIncludes g u || jsIncludes u g))
    let maxPossibleMatches := max userRoute.streets.length googleStreets.length
    if maxPossibleMatches > 0 then ((matchCount : ℚ) / (maxPossibleMatches : ℚ)) * 100 else 0

/-- Direction accuracy sub-score: guard the empty step list, take the
canonical direction of every reference step (one entry per step, duplicates
kept), count the user direction words present in that list, and scale by
the larger of the two list lengths, guarding a zero denominator. -/
def calculateDirectionAccuracy (userRoute : NormalizedRoute) (googleSteps : List RouteStep) : ℚ :=
  if googleSteps.isEmpty then 0
  else
    let googleDirections := googleSteps.map (fun step => step.direction)
    let matchCount := userRoute.directions.countP (fun d => googleDirections.contains d)
    let maxPossibleMatches := max userRoute.directions.length googleDirections.length
    if maxPossibleMatches > 0 then ((matchCount : ℚ) / (maxPossibleMatches : ℚ)) * 100 else 0

/-- Landmark sub-score: a step function of the landmark count. -/
def calculateLandmarkScore (userRoute : NormalizedRoute) : ℚ :=
  let landmarkCount := userRoute.landmarks.length
  if landmarkCount = 0 then 0
  else if landmarkCount = 1 then 40
  else if landmarkCount = 2 then 70
  else if landmarkCount ≥ 3 then 100
  else 0

/-- Completeness sub-score: additive rubric over word count and presence of
the four feature kinds, capped at one hundred.  The step list parameter is
unused but kept, as in the source. -/
def calculateCompletenessScore (userRoute : NormalizedRoute) (_googleSteps : List RouteStep) : ℚ :=
  let wordCount := userRoute.wordCount
  let hasDirections := !userRoute.directions.isEmpty
  let hasStreets := !userRoute.streets.isEmpty
  let hasLandmarks := !userRoute.landmarks.isEmpty
  let hasDistances := !userRoute.distances.isEmpty
  let wordScore : ℚ :=
    if wordCount ≥ 50 then 30
    else if wordCount ≥ 30 then 20
    else if wordCount ≥ 15 then 10
    else 0
  let total := wordScore
    + (if hasDirections then (20 : ℚ) else 0)
    + (if hasStreets then (20 : ℚ) else 0)
    + (if hasLandmarks then (20 : ℚ) else 0)
    + (if hasDistances then (10 : ℚ) else 0)
  min total 100

/-- Feedback message of the low route-match rule. -/
def msgRouteMatch : String := "Try to mention more specific street names or landmarks"

/-- Feedback message of the low direction-accuracy rule. -/
def msgDirectionAccuracy : String := "Include more directional information (left, right, north, south, etc.)"

/-- Feedback message of the low landmark rule. -/
def msgLandmark : String := "Mention notable landmarks to help with navigation"

/-- Feedback message of the low completeness rule. -/
def msgCompleteness : String := "Provide more detailed descriptions of the route"

/-- Feedback message of the short description rule. -/
def msgShort : String := "Your description is quite short - try to add more detail"

/-- Feedback message of the no-directions rule. -/
def msgNoDirections : String := "Include directional instructions in your route"

/-- Positive feedback message emitted when no deficiency rule fired. -/
def msgGreat : String := "Great job! Your route description was detailed and accurate."

/-- Generate feedback: six independent deficiency rules push their messages
in order, and a single positive message is pushed exactly when the list is
still empty afterwards.  The step list parameter is unused but kept, as in
the source. -/
def generateFeedback (breakdown : ScoreBreakdown) (userRoute : NormalizedRoute)
    (_googleSteps : List RouteStep) : List String :=
  let fb0 : List String := []
  let fb1 := if breakdown.routeMatch < 50 then fb0 ++ [msgRouteMatch] else fb0
  let fb2 := if breakdown.directionAccuracy < 50 then fb1 ++ [msgDirectionAccuracy] else fb1
  let fb3 := if breakdown.landmarkMention < 50 then fb2 ++ [msgLandmark] else fb2
  let fb4 := if breakdown.completeness < 50 then fb3 ++ [msgCompleteness] else fb3
  let fb5 := if userRoute.wordCount < 20 then fb4 ++ [msgShort] else fb4
  let fb6 := if userRoute.directions.isEmpty then fb5 ++ [msgNoDirections] else fb5
  if fb6.isEmpty then fb6 ++ [msgGreat] else fb6

/-- The all-zero result returned by the degenerate-input short circuit. -/
def zeroScoreResult : ScoreResult :=
  { score := 0
    maxScore := 100
    breakdown :=
      { routeMatch := 0
        directionAccuracy := 0
        landmarkMention := 0
        completeness := 0 }
    feedback := [] }

/-- Calculate the score of a user route description against a reference
route: short-circuit to the zero result on a falsy user text (the empty
string) or an absent reference, otherwise normalize, extract steps, build
the four-part breakdown, round the weighted composite, and generate
feedback.  Rounding is the JS Math.round, floor of the value plus one
half. -/
def calculateScore (userRoute : String) (googleRoute : Option GoogleRoute) : ScoreResult :=
  if userRoute = "" ∨ googleRoute = none then zeroScoreResult
  else
    let userRouteNormalized := normalizeRoute userRoute
    let googleSteps := extractRouteSteps googleRoute
    let breakdown : ScoreBreakdown :=
      { routeMatch := calculateRouteMatch userRouteNormalized googleSteps
        directionAccuracy := calculateDirectionAccuracy userRouteNormalized googleSteps
        landmarkMention := calculateLandmarkScore userRouteNormalized
        completeness := calculateCompletenessScore userRouteNormalized googleSteps }
    let score := round (breakdown.routeMatch * (0.4 : ℚ)
      + breakdown.directionAccuracy * (0.3 : ℚ)
      + breakdown.landmarkMention * (0.2 : ℚ)
      + breakdown.completeness * (0.1 : ℚ))
    let feedback := generateFeedback breakdown userRouteNormalized googleSteps
    { score := score
      maxScore := 100
      breakdown := breakdown
      feedback := feedback }

/-! Concrete reference-route values used to instantiate the theorems. -/

/-- A sample distance of the concrete reference routes below. -/
def tvDist : TextValue := TextValue.mk "1 km" 1000

/-- A sample duration of the concrete reference routes below. -/
def tvDur : TextValue := TextValue.mk "5 mins" 300

/-- A reference step with the given instruction text. -/
def sampleStep (instr : String) : GoogleStep := GoogleStep.mk instr tvDist tvDur

/-- A reference route with one alternative, one leg and the given steps. -/
def routeOfSteps (steps : List GoogleStep) : GoogleRoute :=
  GoogleRoute.mk [GoogleRouteAlt.mk [GoogleLeg.mk tvDist tvDur steps] (OverviewPolyline.mk "abc")]

/-- A reference whose first leg repeats the same instruction twice. -/
def refTwoLeftMain : GoogleRoute :=
  routeOfSteps [sampleStep "Turn left onto Main St", sampleStep "Turn left onto Main St"]

/-- A reference with a single north-on-Main-Street step. -/
def refHeadNorthMain : GoogleRoute := routeOfSteps [sampleStep "Head north on Main Street"]

/-- A reference with no route alternatives at all. -/
def refNoRoutes : GoogleRoute := GoogleRoute.mk []

/-- A reference whose first alternative has no legs. -/
def refNoLegs : GoogleRoute := GoogleRoute.mk [GoogleRouteAlt.mk [] (OverviewPolyline.mk "p")]

/-- A reference whose first leg has an empty step sequence. -/
def refEmptySteps : GoogleRoute := routeOfSteps []

/-! Helper lemmas about the string primitives. -/

/-- The boolean prefix test holds exactly when the hay extends the needle. -/
theorem isPrefixB_iff_append {n l : List Char} :
    isPrefixB n l = true ↔ ∃ t, l = n ++ t := by
  induction n generalizing l with
  | nil => simp [isPrefixB]
  | cons a as ih =>
    cases l with
    | nil => simp [isPrefixB]
    | cons b bs =>
      simp only [isPrefixB, Bool.and_eq_true, decide_eq_true_eq, ih, List.cons_append,
        List.cons.injEq]
      constructor
      · rintro ⟨hab, t, ht⟩; exact ⟨t, hab.symm, ht⟩
      · rintro ⟨t, hab, ht⟩; exact ⟨hab.symm, t, ht⟩

/-- The boolean substring test holds exactly when the hay splits around the
needle. -/
theorem hasSubstr_iff_append {h n : List Char} :
    hasSubstr h n = true ↔ ∃ u v, h = u ++ n ++ v := by
  induction h with
  | nil =>
    simp only [hasSubstr, isPrefixB_iff_append]
    constructor
    · rintro ⟨t, ht⟩
      exact ⟨[], t, by simpa using ht⟩
    · rintro ⟨u, v, huv⟩
      obtain ⟨hun, hv⟩ := List.append_eq_nil.mp huv.symm
      obtain ⟨hu, hn⟩ := List.append_eq_nil.mp hun
      exact ⟨[], by simp [hn]⟩
  | cons c t ih =>
    simp only [hasSubstr, Bool.or_eq_true, isPrefixB_iff_append, ih]
    constructor
    · rintro (⟨s, hs⟩ | ⟨u, v, huv⟩)
      · exact ⟨[], s, by simpa using hs⟩
      · exact ⟨c :: u, v, by simp [huv]⟩
    · rintro ⟨u, v, huv⟩
      cases u with
      | nil => exact Or.inl ⟨v, by simpa using huv⟩
      | cons x xs =>
        simp only [List.cons_append, List.cons.injEq] at huv
        exact Or.inr ⟨xs, v, huv.2⟩

/-- Every list contains itself as a substring. -/
theorem hasSubstr_self (l : List Char) : hasSubstr l l = true :=
  hasSubstr_iff_append.mpr ⟨[], [], by simp⟩

/-- Substring containment is transitive through a middle list. -/
theorem hasSubstr_trans {a b c : List Char} (hab : hasSubstr a b = true)
    (hbc : hasSubstr b c = true) : hasSubstr a c = true := by
  rcases hasSubstr_iff_append.mp hab with ⟨u, v, huv⟩
  rcases hasSubstr_iff_append.mp hbc with ⟨p, q, hpq⟩
  exact hasSubstr_iff_append.mpr ⟨u ++ p, q ++ v, by simp [huv, hpq]⟩

/-- A string containing a longer phrase contains every phrase inside it. -/
theorem jsIncludes_of_jsIncludes_of_sub {s big small : String}
    (hb : jsIncludes s big = true) (hs : jsIncludes big small = true) :
    jsIncludes s small = true :=
  hasSubstr_trans hb hs

/-- The head of a nonempty dropWhile result falsifies the predicate. -/
theorem dropWhile_head_false {p : Char → Bool} :
    ∀ (l : List Char) (h : l.dropWhile p ≠ []), p ((l.dropWhile p).head h) = false := by
  intro l
  induction l with
  | nil => intro h; simp at h
  | cons c t ih =>
    intro h
    by_cases hc : p c
    · simp only [List.dropWhile_cons_of_pos hc] at h ⊢
      exact ih h
    · simp only [List.dropWhile_cons_of_neg hc] at h ⊢
      simpa using hc

/-- A list whose head is not whitespace holds at least one token. -/
theorem countTok_pos {c : Char} {cs : List Char} (hc : isWsChar c = false) :
    1 ≤ countTok false (c :: cs) := by
  simp [countTok, hc]

/-! Bounds of the four sub-scores and of the rounded composite. -/

/-- An overlap ratio scaled to one hundred is nonnegative. -/
theorem ratio_nonneg (m M : ℕ) : 0 ≤ ((m : ℚ) / (M : ℚ)) * 100 := by
  positivity

/-- An overlap ratio scaled to one hundred is at most one hundred when the
numerator is bounded by the positive denominator. -/
theorem ratio_le_100 {m M : ℕ} (hm : m ≤ M) (hM : 0 < M) :
    ((m : ℚ) / (M : ℚ)) * 100 ≤ 100 := by
  have hM' : (0 : ℚ) < (M : ℚ) := by exact_mod_cast hM
  have h1 : (m : ℚ) / (M : ℚ) ≤ 1 := by
    rw [div_le_one hM']
    exact_mod_cast hm
  nlinarith

/-- The route-match sub-score is nonnegative. -/
theorem calculateRouteMatch_nonneg (nr : NormalizedRoute) (gs : List RouteStep) :
    0 ≤ calculateRouteMatch nr gs := by
  unfold calculateRouteMatch
  dsimp only
  split
  · norm_num
  · split
    · exact ratio_nonneg _ _
    · norm_num

/-- The route-match sub-score is at most one hundred. -/
theorem calculateRouteMatch_le_100 (nr : NormalizedRoute) (gs : List RouteStep) :
    calculateRouteMatch nr gs ≤ 100 := by
  unfold calculateRouteMatch
  dsimp only
  split
  · norm_num
  · split
    · refine ratio_le_100 ?_ (by assumption)
      exact le_trans (List.countP_le_length _) (le_max_left _ _)
    · norm_num

/-- The direction-accuracy sub-score is nonnegative. -/
theorem calculateDirectionAccuracy_nonneg (nr : NormalizedRoute) (gs : List RouteStep) :
    0 ≤ calculateDirectionAccuracy nr gs := by
  unfold calculateDirectionAccuracy
  dsimp only
  split
  · norm_num
  · split
    · exact ratio_nonneg _ _
    · norm_num

/-- The direction-accuracy sub-score is at most one hundred. -/
theorem calculateDirectionAccuracy_le_100 (nr : NormalizedRoute) (gs : List RouteStep) :
    calculateDirectionAccuracy nr gs ≤ 100 := by
  unfold calculateDirectionAccuracy
  dsimp only
  split
  · norm_num
  · split
    · refine ratio_le_100 ?_ (by assumption)
      exact le_trans (List.countP_le_length _) (le_max_left _ _)
    · norm_num

/-- The landmark sub-score is nonnegative. -/
theorem calculateLandmarkScore_nonneg (nr : NormalizedRoute) :
    0 ≤ calculateLandmarkScore nr := by
  unfold calculateLandmarkScore
  dsimp only
  split_ifs <;> norm_num

/-- The landmark sub-score is at most one hundred. -/
theorem calculateLandmarkScore_le_100 (nr : NormalizedRoute) :
    calculateLandmarkScore nr ≤ 100 := by
  unfold calculateLandmarkScore
  dsimp only
  split_ifs <;> norm_num

/-- The completeness sub-score is nonnegative. -/
theorem calculateCompletenessScore_nonneg (nr : NormalizedRoute) (gs : List RouteStep) :
    0 ≤ calculateCompletenessScore nr gs := by
  unfold calculateCompletenessScore
  dsimp only
  split_ifs <;> norm_num

/-- The completeness sub-score is at most one hundred. -/
theorem calculateCompletenessScore_le_100 (nr : NormalizedRoute) (gs : List RouteStep) :
    calculateCompletenessScore nr gs ≤ 100 := by
  unfold calculateCompletenessScore
  dsimp only
  exact min_le_right _ _

/-- Rounding a nonnegative rational gives a nonnegative integer. -/
theorem round_nonneg {q : ℚ} (h : 0 ≤ q) : 0 ≤ round q := by
  rw [round_eq, Int.le_floor]
  push_cast
  linarith

/-- Rounding a rational bounded by an integer gives an integer bounded by
that integer. -/
theorem round_le_int {q : ℚ} {n : ℤ} (h : q ≤ (n : ℚ)) : round q ≤ n := by
  rw [round_eq]
  have h2 : ⌊q + 1 / 2⌋ ≤ ⌊(n : ℚ) + 1 / 2⌋ := Int.floor_le_floor (by linarith)
  have h3 : ⌊(n : ℚ) + 1 / 2⌋ = n := by
    rw [add_comm, Int.floor_add_int]
    norm_num
  omega

/-! Theorems settling the claims. -/

/-- Claim C1: on degenerate input (empty user text or absent reference) the
scorer short-circuits to the zero result: score 0, maxScore 100, all four
breakdown fields 0 and an empty feedback list.  The empty feedback list also
witnesses that feedback generation was not invoked, because the feedback
generator always emits at least one message. -/
theorem c1_short_circuit (userRoute : String) (googleRoute : Option GoogleRoute)
    (h : userRoute = "" ∨ googleRoute = none) :
    (calculateScore userRoute googleRoute).score = 0 ∧
    (calculateScore userRoute googleRoute).maxScore = 100 ∧
    (calculateScore userRoute googleRoute).breakdown.routeMatch = 0 ∧
    (calculateScore userRoute googleRoute).breakdown.directionAccuracy = 0 ∧
    (calculateScore userRoute googleRoute).breakdown.landmarkMention = 0 ∧
    (calculateScore userRoute googleRoute).breakdown.completeness = 0 ∧
    (calculateScore userRoute googleRoute).feedback = [] := by
  unfold calculateScore
  rw [if_pos h]
  exact ⟨rfl, rfl, rfl, rfl, rfl, rfl, rfl⟩

/-- Claim C1 witness: the short circuit evaluated on the empty user text and
a concrete nonempty reference. -/
theorem c1_short_circuit_witness :
    (("" : String) = "" ∨ (some refHeadNorthMain : Option GoogleRoute) = none) ∧
    (calculateScore "" (some refHeadNorthMain)).score = 0 ∧
    (calculateScore "" (some refHeadNorthMain)).feedback = [] := by
  refine ⟨Or.inl rfl, ?_, ?_⟩
  · exact (c1_short_circuit "" (some refHeadNorthMain) (Or.inl rfl)).1
  · exact (c1_short_circuit "" (some refHeadNorthMain) (Or.inl rfl)).2.2.2.2.2.2

/-- Claim C4 counterexample: the empty input has an empty cleaned string but
word count 1, not 0 — the JS split of the empty string is a singleton list,
so wordCount is never 0 and the claimed equivalence fails. -/
theorem c4_counterexample :
    (normalizeRoute "").cleaned = "" ∧ (normalizeRoute "").wordCount ≠ 0 := by
  constructor
  · decide
  · decide

/-- Claim C4 amended: wordCount is always at least 1 (the JS split of an
empty string has length one), and an empty cleaned string gives word count
exactly 1, not 0. -/
theorem c4_wordCount_positive (s : String) :
    1 ≤ (normalizeRoute s).wordCount ∧
    ((normalizeRoute s).cleaned = "" → (normalizeRoute s).wordCount = 1) := by
  have hwc : (normalizeRoute s).wordCount
      = splitWsCount (String.mk (trimList (lowerList s.toList))) := rfl
  have hcl : (normalizeRoute s).cleaned = String.mk (trimList (lowerList s.toList)) := rfl
  rw [hwc, hcl]
  by_cases h0 : trimList (lowerList s.toList) = []
  · rw [h0]
    exact ⟨by decide, fun _ => by decide⟩
  · have hne : (((lowerList s.toList).reverse.dropWhile isWsChar).reverse).dropWhile isWsChar
        ≠ [] := h0
    have hhead := dropWhile_head_false
      (((lowerList s.toList).reverse.dropWhile isWsChar).reverse) hne
    constructor
    · have hsplit : splitWsCount (String.mk (trimList (lowerList s.toList)))
          = countTok false (trimList (lowerList s.toList)) := by
        unfold splitWsCount
        rw [show (String.mk (trimList (lowerList s.toList))).toList
            = trimList (lowerList s.toList) from rfl]
        rw [if_neg h0]
      rw [hsplit]
      have hct := List.head_cons_tail (trimList (lowerList s.toList)) h0
      rw [← hct]
      exact countTok_pos hhead
    · intro habs
      exfalso
      apply h0
      have hdata := congrArg String.data habs
      simpa using hdata

/-- Claim C4 amended witness: a whitespace-only input has empty cleaned text
and word count exactly 1. -/
theorem c4_wordCount_positive_witness :
    (normalizeRoute " ").cleaned = "" ∧ (normalizeRoute " ").wordCount = 1 :=
  ⟨by decide, (c4_wordCount_positive " ").2 (by decide)⟩

/-- Claim C7: reference step extraction is total and fails soft: an absent
reference, a reference with no alternatives, and a first alternative with
no legs all give the empty sequence, and otherwise the result has exactly
one derived step per step of the first leg (in particular the empty step
sequence gives the empty result and nothing is ever thrown). -/
theorem c7_extract_steps_total :
    extractRouteSteps none = [] ∧
    (∀ gr : GoogleRoute, gr.routes = [] → extractRouteSteps (some gr) = []) ∧
    (∀ (gr : GoogleRoute) (alt : GoogleRouteAlt) (rs : List GoogleRouteAlt),
      gr.routes = alt :: rs → alt.legs = [] → extractRouteSteps (some gr) = []) ∧
    (∀ (gr : GoogleRoute) (alt : GoogleRouteAlt) (rs : List GoogleRouteAlt)
      (leg : GoogleLeg) (ls : List GoogleLeg),
      gr.routes = alt :: rs → alt.legs = leg :: ls →
      (extractRouteSteps (some gr)).length = leg.steps.length) := by
  refine ⟨rfl, ?_, ?_, ?_⟩
  · intro gr h
    simp [extractRouteSteps, h]
  · intro gr alt rs h1 h2
    simp [extractRouteSteps, h1, h2]
  · intro gr alt rs leg ls h1 h2
    simp [extractRouteSteps, h1, h2]

/-- Claim C7 witness: the fail-soft cases evaluated on concrete references
with no alternatives, no legs, and no steps. -/
theorem c7_extract_steps_total_witness :
    extractRouteSteps (some refNoRoutes) = [] ∧
    extractRouteSteps (some refNoLegs) = [] ∧
    extractRouteSteps (some refEmptySteps) = [] := by
  refine ⟨?_, ?_, ?_⟩
  · exact c7_extract_steps_total.2.1 refNoRoutes (by decide)
  · exact c7_extract_steps_total.2.2.1 refNoLegs (GoogleRouteAlt.mk [] (OverviewPolyline.mk "p"))
      [] (by decide) (by decide)
  · apply List.eq_nil_of_length_eq_zero
    exact c7_extract_steps_total.2.2.2 refEmptySteps
      (GoogleRouteAlt.mk [GoogleLeg.mk tvDist tvDur []] (OverviewPolyline.mk "abc"))
      [] (GoogleLeg.mk tvDist tvDur []) [] (by decide) (by decide)

/-- Claim C9: stripping the markup of the instruction with bold tags around
the direction gives the plain text with no angle brackets, the canonical
direction north and the street main st; and the decode phase of the
stripper decodes each of the five common entities. -/
theorem c9_markup_stripping :
    removeHtmlTags "Go <b>north</b> on Main St" = "Go north on Main St" ∧
    ((removeHtmlTags "Go <b>north</b> on Main St").toList.all
      (fun c => !(c = '<' || c = '>'))) = true ∧
    extractDirectionFromInstruction "Go <b>north</b> on Main St" = "north" ∧
    extractStreets (lowerStr (removeHtmlTags "Go <b>north</b> on Main St")) = ["main st"] ∧
    decodeEntities "&lt;" = "<" ∧
    decodeEntities "&gt;" = ">" ∧
    decodeEntities "&amp;" = "&" ∧
    decodeEntities "&quot;" = quoteStr ∧
    decodeEntities aposEntity = aposStr := by
  decide

/-- Absorption of a boolean disjunction whose left side implies its right
side. -/
theorem or_eq_right_of_imp {a b : Bool} (h : a = true → b = true) : (a || b) = b := by
  cases a
  · simp
  · simp [h rfl]

/-- Claim C5: direction extraction is first-match precedence on the
stripped, lowercased instruction: left, then right, then straight or
continue, then north, south, east, west, else unknown (the turn-left and
turn-right tests of the source are absorbed by the plain left and right
substring tests); in particular an instruction with both a turn word and a
cardinal word resolves to the turn word. -/
theorem c5_direction_precedence (instruction : String) :
    extractDirectionFromInstruction instruction =
      (if jsIncludes (lowerStr (removeHtmlTags instruction)) "left" then "left"
       else if jsIncludes (lowerStr (removeHtmlTags instruction)) "right" then "right"
       else if jsIncludes (lowerStr (removeHtmlTags instruction)) "straight"
            || jsIncludes (lowerStr (removeHtmlTags instruction)) "continue" then "straight"
       else if jsIncludes (lowerStr (removeHtmlTags instruction)) "north" then "north"
       else if jsIncludes (lowerStr (removeHtmlTags instruction)) "south" then "south"
       else if jsIncludes (lowerStr (removeHtmlTags instruction)) "east" then "east"
       else if jsIncludes (lowerStr (removeHtmlTags instruction)) "west" then "west"
       else "unknown") ∧
    extractDirectionFromInstruction "turn left on North Street" = "left" := by
  constructor
  · unfold extractDirectionFromInstruction
    dsimp only
    rw [or_eq_right_of_imp
        (fun h => jsIncludes_of_jsIncludes_of_sub h (by decide)),
      or_eq_right_of_imp
        (fun h => jsIncludes_of_jsIncludes_of_sub h (by decide))]
  · decide

/-- Claim C6: the landmark feature list is the filtered fixed vocabulary
(hence has no duplicates), and the landmark sub-score is the exact step
function of its length: zero gives 0, one gives 40, two gives 70 and three
or more give 100 — no other value occurs. -/
theorem c6_landmark_step (s : String) :
    (normalizeRoute s).landmarks
      = landmarkWords.filter (fun w => jsIncludes (normalizeRoute s).cleaned w) ∧
    (normalizeRoute s).landmarks.Nodup ∧
    calculateLandmarkScore (normalizeRoute s) =
      (if (normalizeRoute s).landmarks.length = 0 then 0
       else if (normalizeRoute s).landmarks.length = 1 then 40
       else if (normalizeRoute s).landmarks.length = 2 then 70
       else 100) := by
  refine ⟨rfl, ?_, ?_⟩
  · have h : landmarkWords.Nodup := by decide
    exact h.filter _
  · unfold calculateLandmarkScore
    dsimp only
    split_ifs <;> first | rfl | omega

/-- Claim C8: feedback evaluates the six deficiency rules independently, in
a fixed order, collecting every applicable message, and emits exactly the
single positive message when and only when none of the six fired; the
result is never empty. -/
theorem c8_feedback (b : ScoreBreakdown) (nr : NormalizedRoute) (gs : List RouteStep) :
    generateFeedback b nr gs =
      (if ((if b.routeMatch < 50 then [msgRouteMatch] else [])
          ++ (if b.directionAccuracy < 50 then [msgDirectionAccuracy] else [])
          ++ (if b.landmarkMention < 50 then [msgLandmark] else [])
          ++ (if b.completeness < 50 then [msgCompleteness] else [])
          ++ (if nr.wordCount < 20 then [msgShort] else [])
          ++ (if nr.directions.isEmpty then [msgNoDirections] else [])) = []
       then [msgGreat]
       else ((if b.routeMatch < 50 then [msgRouteMatch] else [])
          ++ (if b.directionAccuracy < 50 then [msgDirectionAccuracy] else [])
          ++ (if b.landmarkMention < 50 then [msgLandmark] else [])
          ++ (if b.completeness < 50 then [msgCompleteness] else [])
          ++ (if nr.wordCount < 20 then [msgShort] else [])
          ++ (if nr.directions.isEmpty then [msgNoDirections] else []))) ∧
    generateFeedback b nr gs ≠ [] ∧
    (msgGreat ∈ generateFeedback b nr gs ↔
      ¬(b.routeMatch < 50) ∧ ¬(b.directionAccuracy < 50) ∧ ¬(b.landmarkMention < 50) ∧
      ¬(b.completeness < 50) ∧ ¬(nr.wordCount < 20) ∧ nr.directions.isEmpty = false) := by
  have hne1 : ¬(msgGreat = msgRouteMatch) := by decide
  have hne2 : ¬(msgGreat = msgDirectionAccuracy) := by decide
  have hne3 : ¬(msgGreat = msgLandmark) := by decide
  have hne4 : ¬(msgGreat = msgCompleteness) := by decide
  have hne5 : ¬(msgGreat = msgShort) := by decide
  have hne6 : ¬(msgGreat = msgNoDirections) := by decide
  unfold generateFeedback
  by_cases h1 : b.routeMatch < 50 <;> by_cases h2 : b.directionAccuracy < 50 <;>
    by_cases h3 : b.landmarkMention < 50 <;> by_cases h4 : b.completeness < 50 <;>
    by_cases h5 : nr.wordCount < 20 <;> by_cases h6 : nr.directions.isEmpty = true <;>
    simp [h1, h2, h3, h4, h5, h6, hne1, hne2, hne3, hne4, hne5, hne6]

/-- Evaluation shape of the route-match sub-score on a nonempty step list
with a positive denominator. -/
theorem calculateRouteMatch_eval (nr : NormalizedRoute) (gs : List RouteStep) (m M : ℕ)
    (hne : gs.isEmpty = false)
    (hm : List.countP
        (fun u => ((gs.map (fun step => extractStreets step.instruction)).flatten).any
          (fun g => jsIncludes g u || jsIncludes u g)) nr.streets = m)
    (hM : max nr.streets.length
        ((gs.map (fun step => extractStreets step.instruction)).flatten).length = M)
    (hMpos : 0 < M) :
    calculateRouteMatch nr gs = (m : ℚ) / (M : ℚ) * 100 := by
  unfold calculateRouteMatch
  rw [hne]
  simp only [Bool.false_eq_true, if_false]
  rw [hm, hM, if_pos hMpos]

/-- Evaluation shape of the direction-accuracy sub-score on a nonempty step
list with a positive denominator. -/
theorem calculateDirectionAccuracy_eval (nr : NormalizedRoute) (gs : List RouteStep) (m M : ℕ)
    (hne : gs.isEmpty = false)
    (hm : List.countP (fun d => (gs.map (fun step => step.direction)).contains d)
        nr.directions = m)
    (hM : max nr.directions.length (gs.map (fun step => step.direction)).length = M)
    (hMpos : 0 < M) :
    calculateDirectionAccuracy nr gs = (m : ℚ) / (M : ℚ) * 100 := by
  unfold calculateDirectionAccuracy
  rw [hne]
  simp only [Bool.false_eq_true, if_false]
  rw [hm, hM, if_pos hMpos]

/-- Claim C2 counterexample: for the user text with one street and one
direction against a reference that repeats the same instruction in two
steps, the extracted street and direction SETS on the two sides are equal
(both are the singleton main st, respectively left), yet the two sub-scores
are 50, not 100, because the reference street and direction lists keep one
entry per step and the denominator counts those duplicates. -/
theorem c2_counterexample :
    (normalizeRoute "main st left").streets = ["main st"] ∧
    dedupFirst ((List.map (fun step => extractStreets step.instruction)
        (extractRouteSteps (some refTwoLeftMain))).flatten) = ["main st"] ∧
    (normalizeRoute "main st left").directions = ["left"] ∧
    dedupFirst ((extractRouteSteps (some refTwoLeftMain)).map
        (fun step => step.direction)) = ["left"] ∧
    calculateRouteMatch (normalizeRoute "main st left")
        (extractRouteSteps (some refTwoLeftMain)) ≠ 100 ∧
    calculateDirectionAccuracy (normalizeRoute "main st left")
        (extractRouteSteps (some refTwoLeftMain)) ≠ 100 := by
  refine ⟨by decide, by decide, by decide, by decide, ?_, ?_⟩
  · rw [calculateRouteMatch_eval (normalizeRoute "main st left")
      (extractRouteSteps (some refTwoLeftMain)) 1 2 (by decide) (by decide) (by decide)
      (by decide)]
    norm_num
  · rw [calculateDirectionAccuracy_eval (normalizeRoute "main st left")
      (extractRouteSteps (some refTwoLeftMain)) 1 2 (by decide) (by decide) (by decide)
      (by decide)]
    norm_num

/-- Claim C2 amended: when the user street list equals the street list
re-extracted and concatenated over the reference steps (duplicates kept)
and is nonempty, and the user direction list equals the per-step direction
list and is nonempty, both sub-scores are exactly 100; and whenever the
denominator (the larger of the two list lengths) is zero the sub-score is
the exact rational 0, never undefined. -/
theorem c2_identity_amended (u : String) (gs : List RouteStep)
    (hs : (normalizeRoute u).streets
        = (gs.map (fun step => extractStreets step.instruction)).flatten)
    (hsne : (normalizeRoute u).streets ≠ [])
    (hd : (normalizeRoute u).directions = gs.map (fun step => step.direction))
    (hdne : (normalizeRoute u).directions ≠ []) :
    calculateRouteMatch (normalizeRoute u) gs = 100 ∧
    calculateDirectionAccuracy (normalizeRoute u) gs = 100 ∧
    (∀ (nr : NormalizedRoute) (gs2 : List RouteStep),
      max nr.streets.length
        ((gs2.map (fun step => extractStreets step.instruction)).flatten).length = 0 →
      calculateRouteMatch nr gs2 = 0) ∧
    (∀ (nr : NormalizedRoute) (gs2 : List RouteStep),
      max nr.directions.length (gs2.map (fun step => step.direction)).length = 0 →
      calculateDirectionAccuracy nr gs2 = 0) := by
  have hgsne : gs.isEmpty = false := by
    cases gs with
    | nil =>
      exfalso
      apply hsne
      rw [hs]
      rfl
    | cons a t => rfl
  have hlen : 0 < (normalizeRoute u).streets.length := List.length_pos.mpr hsne
  have hdlen : 0 < (normalizeRoute u).directions.length := List.length_pos.mpr hdne
  have hcast : ((normalizeRoute u).streets.length : ℚ) ≠ 0 := by
    exact_mod_cast hlen.ne'
  have hdcast : ((normalizeRoute u).directions.length : ℚ) ≠ 0 := by
    exact_mod_cast hdlen.ne'
  refine ⟨?_, ?_, ?_, ?_⟩
  · rw [calculateRouteMatch_eval (normalizeRoute u) gs
      (normalizeRoute u).streets.length (normalizeRoute u).streets.length hgsne ?_ ?_ hlen]
    · rw [div_self hcast, one_mul]
    · apply List.countP_eq_length.mpr
      intro x hx
      apply List.any_eq_true.mpr
      refine ⟨x, by rw [← hs]; exact hx, ?_⟩
      have hself : jsIncludes x x = true := hasSubstr_self x.toList
      rw [hself]
      rfl
    · rw [← hs, max_self]
  · rw [calculateDirectionAccuracy_eval (normalizeRoute u) gs
      (normalizeRoute u).directions.length (normalizeRoute u).directions.length hgsne ?_ ?_
      hdlen]
    · rw [div_self hdcast, one_mul]
    · apply List.countP_eq_length.mpr
      intro x hx
      rw [← hd]
      exact List.elem_eq_true_of_mem hx
    · rw [← hd, max_self]
  · intro nr gs2 h
    unfold calculateRouteMatch
    split
    · rfl
    · dsimp only
      rw [h]
      norm_num
  · intro nr gs2 h
    unfold calculateDirectionAccuracy
    split
    · rfl
    · dsimp only
      rw [h]
      norm_num

/-- Claim C2 amended witness: the identity case evaluated on a user text
with exactly the street main street and the direction north against the
single-step reference heading north on Main Street. -/
theorem c2_identity_amended_witness :
    calculateRouteMatch (normalizeRoute "main street north")
        (extractRouteSteps (some refHeadNorthMain)) = 100 ∧
    calculateDirectionAccuracy (normalizeRoute "main street north")
        (extractRouteSteps (some refHeadNorthMain)) = 100 :=
  ⟨(c2_identity_amended "main street north" (extractRouteSteps (some refHeadNorthMain))
      (by decide) (by decide) (by decide) (by decide)).1,
   (c2_identity_amended "main street north" (extractRouteSteps (some refHeadNorthMain))
      (by decide) (by decide) (by decide) (by decide)).2.1⟩

/-- Claim C3: for every input the returned score is the composite of the
four breakdown fields weighted four-three-two-one tenths and rounded (floor
of the value plus one half, which on this nonnegative domain is rounding
half away from zero), the score is an integer in the closed interval from 0
to 100, maxScore is the constant 100, and every breakdown field lies in the
closed interval from 0 to 100. -/
theorem c3_composite_bounds (u : String) (g : Option GoogleRoute) :
    (calculateScore u g).score
      = round ((calculateScore u g).breakdown.routeMatch * (0.4 : ℚ)
        + (calculateScore u g).breakdown.directionAccuracy * (0.3 : ℚ)
        + (calculateScore u g).breakdown.landmarkMention * (0.2 : ℚ)
        + (calculateScore u g).breakdown.completeness * (0.1 : ℚ)) ∧
    (calculateScore u g).maxScore = 100 ∧
    0 ≤ (calculateScore u g).score ∧ (calculateScore u g).score ≤ 100 ∧
    0 ≤ (calculateScore u g).breakdown.routeMatch ∧
    (calculateScore u g).breakdown.routeMatch ≤ 100 ∧
    0 ≤ (calculateScore u g).breakdown.directionAccuracy ∧
    (calculateScore u g).breakdown.directionAccuracy ≤ 100 ∧
    0 ≤ (calculateScore u g).breakdown.landmarkMention ∧
    (calculateScore u g).breakdown.landmarkMention ≤ 100 ∧
    0 ≤ (calculateScore u g).breakdown.completeness ∧
    (calculateScore u g).breakdown.completeness ≤ 100 := by
  by_cases h : u = "" ∨ g = none
  · unfold calculateScore
    rw [if_pos h]
    norm_num [zeroScoreResult]
  · unfold calculateScore
    rw [if_neg h]
    dsimp only
    have h1 := calculateRouteMatch_nonneg (normalizeRoute u) (extractRouteSteps g)
    have h2 := calculateRouteMatch_le_100 (normalizeRoute u) (extractRouteSteps g)
    have h3 := calculateDirectionAccuracy_nonneg (normalizeRoute u) (extractRouteSteps g)
    have h4 := calculateDirectionAccuracy_le_100 (normalizeRoute u) (extractRouteSteps g)
    have h5 := calculateLandmarkScore_nonneg (normalizeRoute u)
    have h6 := calculateLandmarkScore_le_100 (normalizeRoute u)
    have h7 := calculateCompletenessScore_nonneg (normalizeRoute u) (extractRouteSteps g)
    have h8 := calculateCompletenessScore_le_100 (normalizeRoute u) (extractRouteSteps g)
    refine ⟨rfl, rfl, ?_, ?_, h1, h2, h3, h4, h5, h6, h7, h8⟩
    · exact round_nonneg (by linarith)
    · exact round_le_int (by push_cast; linarith)

/-- Claim C10: a present reference whose first leg has an empty step
sequence does not short-circuit: the two reference-relative sub-scores are
0 by the empty-steps guard, the landmark and completeness sub-scores are
computed from the user text alone, the composite is the rounding of just
their weighted sum, so the score is at most 30 — and it can be positive, as
the closing conjunct shows on a concrete text scoring 27. -/
theorem c10_empty_steps_scoring (u : String) (gr : GoogleRoute) (alt : GoogleRouteAlt)
    (rs : List GoogleRouteAlt) (leg : GoogleLeg) (ls : List GoogleLeg)
    (hu : u ≠ "") (hr : gr.routes = alt :: rs) (hl : alt.legs = leg :: ls)
    (hst : leg.steps = []) :
    ((calculateScore u (some gr)).breakdown.routeMatch = 0 ∧
     (calculateScore u (some gr)).breakdown.directionAccuracy = 0 ∧
     (calculateScore u (some gr)).breakdown.landmarkMention
        = calculateLandmarkScore (normalizeRoute u) ∧
     (calculateScore u (some gr)).breakdown.completeness
        = calculateCompletenessScore (normalizeRoute u) [] ∧
     (calculateScore u (some gr)).score
        = round (calculateLandmarkScore (normalizeRoute u) * (0.2 : ℚ)
          + calculateCompletenessScore (normalizeRoute u) [] * (0.1 : ℚ)) ∧
     (calculateScore u (some gr)).score ≤ 30) ∧
    0 < (calculateScore "church park bank main st left 5 km" (some refEmptySteps)).score := by
  constructor
  · have hempty : extractRouteSteps (some gr) = [] := by
      simp [extractRouteSteps, hr, hl, hst]
    have hguard : ¬(u = "" ∨ (some gr : Option GoogleRoute) = none) := by
      rintro (h | h)
      · exact hu h
      · simp at h
    have hrm : calculateRouteMatch (normalizeRoute u) [] = 0 := rfl
    have hda : calculateDirectionAccuracy (normalizeRoute u) [] = 0 := rfl
    unfold calculateScore
    rw [if_neg hguard]
    dsimp only
    rw [hempty]
    refine ⟨hrm, hda, rfl, rfl, ?_, ?_⟩
    · rw [hrm, hda]
      congr 1
      ring
    · rw [hrm, hda]
      have h5 := calculateLandmarkScore_le_100 (normalizeRoute u)
      have h7 := calculateCompletenessScore_le_100 (normalizeRoute u) []
      exact round_le_int (by push_cast; linarith)
  · have hguard0 : ¬(("church park bank main st left 5 km" : String) = ""
        ∨ (some refEmptySteps : Option GoogleRoute) = none) := by
      rintro (h | h)
      · exact absurd h (by decide)
      · simp at h
    have hg0 : extractRouteSteps (some refEmptySteps) = [] := by decide
    have hlm0 : calculateLandmarkScore
        (normalizeRoute "church park bank main st left 5 km") = 100 := by
      have h3 : (normalizeRoute "church park bank main st left 5 km").landmarks.length = 3 :=
        by decide
      unfold calculateLandmarkScore
      rw [h3]
      norm_num
    have hcp0 : calculateCompletenessScore
        (normalizeRoute "church park bank main st left 5 km") [] = 70 := by
      have hw : (normalizeRoute "church park bank main st left 5 km").wordCount = 8 :=
        by decide
      have hb1 : (normalizeRoute "church park bank main st left 5 km").directions.isEmpty
          = false := by decide
      have hb2 : (normalizeRoute "church park bank main st left 5 km").streets.isEmpty
          = false := by decide
      have hb3 : (normalizeRoute "church park bank main st left 5 km").landmarks.isEmpty
          = false := by decide
      have hb4 : (normalizeRoute "church park bank main st left 5 km").distances.isEmpty
          = false := by decide
      unfold calculateCompletenessScore
      rw [hw, hb1, hb2, hb3, hb4]
      norm_num
    unfold calculateScore
    rw [if_neg hguard0]
    dsimp only
    rw [hg0]
    rw [show calculateRouteMatch
        (normalizeRoute "church park bank main st left 5 km") [] = 0 from rfl,
      show calculateDirectionAccuracy
        (normalizeRoute "church park bank main st left 5 km") [] = 0 from rfl,
      hlm0, hcp0]
    norm_num

/-- Claim C10 witness: the empty-step conclusions evaluated on a concrete
nonempty user text and the concrete reference with an empty first leg. -/
theorem c10_empty_steps_scoring_witness :
    (calculateScore "left on main" (some refEmptySteps)).breakdown.routeMatch = 0 ∧
    (calculateScore "left on main" (some refEmptySteps)).score ≤ 30 :=
  ⟨((c10_empty_steps_scoring "left on main" refEmptySteps
      (GoogleRouteAlt.mk [GoogleLeg.mk tvDist tvDur []] (OverviewPolyline.mk "abc"))
      [] (GoogleLeg.mk tvDist tvDur []) [] (by decide) rfl rfl rfl).1).1,
   ((c10_empty_steps_scoring "left on main" refEmptySteps
      (GoogleRouteAlt.mk [GoogleLeg.mk tvDist tvDur []] (OverviewPolyline.mk "abc"))
      [] (GoogleLeg.mk tvDist tvDur []) [] (by decide) rfl rfl rfl).1).2.2.2.2.2⟩

end MapGame
